import Mathlib

/-!
Shallow embedding of the SNS-dashboard extraction engine (scraper module,
retry controller, concurrency governor, store update hook) together with
proofs checking the natural-language specification against the code.

Numeric JS values are modelled exactly: the scraped quantities are integers,
and decimal literals such as "1.2" are kept as exact decimal fractions
(an integer numerator over a power of ten); for every input exercised here
the IEEE-754 double computation agrees with the exact decimal one.  A JS
`NaN` arising from a failed parse is folded into `none` (the code checks
`isNaN` on every path that can observe it except the suffix-multiplier
branches, where a digit-free capture would yield `NaN`, never `0`).
Fallible values (`x | null`) are `Option`.
-/

namespace SNS

/-- JS character class `\d`. -/
def isDigitChar (c : Char) : Bool := c.isDigit

/-- JS character class `[\d.]`. -/
def isDigitOrDot (c : Char) : Bool := c.isDigit || c = '.'

/-- JS character class `\s` (the whitespace actually occurring in scraped text). -/
def isWsChar (c : Char) : Bool := c.isWhitespace

/-- Numeric value of a list of decimal digit characters (model of the digit
part consumed by `parseFloat` / `parseInt`). -/
def digitsToNat (ds : List Char) : Nat :=
  ds.foldl (fun n c => 10 * n + (c.toNat - 48)) 0

/-- An exact decimal fraction `num / 10 ^ scale`: the value of a JS decimal
literal such as "1.2". -/
structure DecNum where
  num : Int
  scale : Nat
deriving DecidableEq

/-- Model of JS `parseFloat` on an already-trimmed character list: an optional
sign, then decimal digits with at most one dot; trailing garbage is ignored;
`none` models `NaN` (no digits at all).  Exponent notation never occurs in the
strings the scraper feeds to it (all come from `[\d,.만천억KkMm]`-class
captures). -/
def parseFloatBody (sgn : Int) (body : List Char) : Option DecNum :=
  let intDs := body.takeWhile isDigitChar
  let fracDs :=
    match body.drop intDs.length with
    | '.' :: r2 => r2.takeWhile isDigitChar
    | _ => []
  if intDs.isEmpty && fracDs.isEmpty then none
  else
    some ⟨sgn * ((digitsToNat intDs : Int) * ((10 : Nat) ^ fracDs.length : Nat) +
      (digitsToNat fracDs : Int)), fracDs.length⟩

/-- Sign dispatch of `parseFloat`. -/
def parseFloatDec : List Char → Option DecNum
  | '-' :: rest => parseFloatBody (-1) rest
  | '+' :: rest => parseFloatBody 1 rest
  | cs => parseFloatBody 1 cs

/-- Model of `Math.round(x * mult)` for an exact decimal `x`: multiply, then
round half toward positive infinity, i.e. `⌊x * mult + 1/2⌋`, computed as a
floor division over the integers. -/
def jsRoundMul (x : DecNum) (mult : Nat) : Int :=
  Int.fdiv (2 * x.num * (mult : Int) + ((10 : Nat) ^ x.scale : Nat))
    (2 * ((10 : Nat) ^ x.scale : Nat))

/-- Match of the anchored regex `^([\d.]+)\s*S$` where `S` is one of the given
suffix characters; returns the capture group.  The three character classes
involved are pairwise disjoint, so the greedy decomposition is unique. -/
def matchMagnitude (cs : List Char) (sufs : List Char) : Option (List Char) :=
  let a := cs.takeWhile isDigitOrDot
  let rest := cs.drop a.length
  let w := rest.takeWhile isWsChar
  match rest.drop w.length with
  | [c] => if !a.isEmpty && sufs.contains c then some a else none
  | _ => none

/-- Model of JS `String.prototype.trim` on a character list. -/
def trimChars (cs : List Char) : List Char :=
  ((cs.dropWhile isWsChar).reverse.dropWhile isWsChar).reverse

/-- `parseNum` from the scraper (src/unnamed/part_006 lines 347-362): the
magnitude parser `parseMagnitude` of the spec.  Strips commas, trims, then
tries the suffix multipliers 만/천/억/K/M in the source's order, falling back
to a bare `parseFloat`; `none` models both `null` and a `NaN` result. -/
def parseNum (s : String) : Option Int :=
  if s = "" then none
  else
    let t := trimChars (s.data.filter (fun c => c ≠ ','))
    match matchMagnitude t ['만'] with
    | some a => (parseFloatDec a).map (fun q => jsRoundMul q 10000)
    | none =>
    match matchMagnitude t ['천'] with
    | some a => (parseFloatDec a).map (fun q => jsRoundMul q 1000)
    | none =>
    match matchMagnitude t ['억'] with
    | some a => (parseFloatDec a).map (fun q => jsRoundMul q 100000000)
    | none =>
    match matchMagnitude t ['K', 'k'] with
    | some a => (parseFloatDec a).map (fun q => jsRoundMul q 1000)
    | none =>
    match matchMagnitude t ['M', 'm'] with
    | some a => (parseFloatDec a).map (fun q => jsRoundMul q 1000000)
    | none => (parseFloatDec t).map (fun q => jsRoundMul q 1)

end SNS

namespace SNS

-- ============================================================
-- Calendar model (JS Date, treated at UTC, minute precision)
-- ============================================================

/-- Civil date to day number since the Unix epoch (Howard Hinnant's
`days_from_civil`, the arithmetic behind JS `Date` normalization; valid for a
day-of-month beyond the month's end, which then rolls over exactly as JS
`setDate`/`setMonth` do). -/
def daysFromCivil (y m d : Int) : Int :=
  let y2 := if m ≤ 2 then y - 1 else y
  let era := Int.fdiv y2 400
  let yoe := y2 - era * 400
  let mp := if 2 < m then m - 3 else m + 9
  let doy := Int.fdiv (153 * mp + 2) 5 + d - 1
  let doe := yoe * 365 + Int.fdiv yoe 4 - Int.fdiv yoe 100 + doy
  era * 146097 + doe - 719468

/-- Day number since the Unix epoch back to the civil date `(y, m, d)`
(Hinnant's `civil_from_days`). -/
def civilFromDays (z0 : Int) : Int × Int × Int :=
  let z := z0 + 719468
  let era := Int.fdiv z 146097
  let doe := z - era * 146097
  let yoe := Int.fdiv
    (doe - Int.fdiv doe 1460 + Int.fdiv doe 36524 - Int.fdiv doe 146096) 365
  let y := yoe + era * 400
  let doy := doe - (365 * yoe + Int.fdiv yoe 4 - Int.fdiv yoe 100)
  let mp := Int.fdiv (5 * doy + 2) 153
  let d := doy - Int.fdiv (153 * mp + 2) 5 + 1
  let m := if mp < 10 then mp + 3 else mp - 9
  (if m ≤ 2 then y + 1 else y, m, d)

/-- The character of a single decimal digit. -/
def digitChar (d : Nat) : Char :=
  match d with
  | 0 => '0' | 1 => '1' | 2 => '2' | 3 => '3' | 4 => '4'
  | 5 => '5' | 6 => '6' | 7 => '7' | 8 => '8' | _ => '9'

/-- Decimal digit characters of a natural number, most significant first
(empty for zero; fuel-structured so that it evaluates by kernel reduction). -/
def natDigitChars : Nat → Nat → List Char
  | 0, _ => []
  | fuel + 1, n =>
    if n = 0 then [] else natDigitChars fuel (n / 10) ++ [digitChar (n % 10)]

/-- Decimal digit characters of a natural number, most significant first,
left-padded with zeros to the given width (as `toISOString` pads). -/
def padDigits (width n : Nat) : List Char :=
  let ds := natDigitChars (n + 1) n
  List.replicate (width - ds.length) '0' ++ ds

/-- `toISOString().split("T")[0]` of an instant falling on the given epoch
day number: the calendar-date prefix `YYYY-MM-DD` of the ISO string. -/
def isoDateOfDay (day : Int) : String :=
  let c := civilFromDays day
  String.mk ((if c.1 < 0 then ['-'] else []) ++ padDigits 4 c.1.natAbs ++
    ['-'] ++ padDigits 2 c.2.1.natAbs ++ ['-'] ++ padDigits 2 c.2.2.natAbs)

/-- A JS `Date` instant, minutes since the Unix epoch (UTC; the scraper host
is taken at UTC, and second/millisecond parts never influence the emitted
calendar date). -/
structure JsDate where
  totalMin : Int
deriving DecidableEq

/-- Epoch day number of the instant. -/
def JsDate.dayNumber (t : JsDate) : Int := Int.fdiv t.totalMin 1440

/-- The instant `2025-06-15T00:00:00Z`, the fixed evaluation instant of the
spec's date-parsing test vector. -/
def fixedNow : JsDate := ⟨1440 * daysFromCivil 2025 6 15⟩

-- ============================================================
-- Relative-date parsing (part_006 lines 371-398)
-- ============================================================

/-- At the current position, match `\d+` then `\s*` and hand the rest to the
unit-specific tail matcher; returns the numeric capture `match[1]` (as
consumed by `parseInt`). -/
def matchUnitAt (tail : List Char → Bool) (cs : List Char) : Option Nat :=
  let ds := cs.takeWhile isDigitChar
  if ds.isEmpty then none
  else if tail ((cs.drop ds.length).dropWhile isWsChar) then
    some (digitsToNat ds)
  else none

/-- Leftmost unanchored match of `(\d+)\s*<tail>` in the text, the JS
`String.prototype.match` search order. -/
def searchUnit (tail : List Char → Bool) : List Char → Option Nat
  | [] => none
  | c :: rest =>
    match matchUnitAt tail (c :: rest) with
    | some n => some n
    | none => searchUnit tail rest

/-- Tail `u\s*전` for a one-character unit (일 / 분 / 주): the unit character
then optional whitespace then 전. -/
def tailUnitJeon (u : Char) (cs : List Char) : Bool :=
  match cs with
  | c :: rest => c = u && (match rest.dropWhile isWsChar with
      | '전' :: _ => true
      | _ => false)
  | _ => false

/-- Tail `개월\s*전` for the month unit. -/
def tailMonthJeon (cs : List Char) : Bool :=
  match cs with
  | '개' :: '월' :: rest =>
    (match rest.dropWhile isWsChar with
     | '전' :: _ => true
     | _ => false)
  | _ => false

/-- Tail `시간?\s*전?` of the hour regex: only the 시 is mandatory. -/
def tailHour (cs : List Char) : Bool :=
  match cs with
  | '시' :: _ => true
  | _ => false

/-- JS `text.includes("시간")`. -/
def containsSiGan : List Char → Bool
  | '시' :: '간' :: _ => true
  | _ :: rest => containsSiGan rest
  | [] => false

/-- Test of the anchored regex `^\d{4}-\d{1,2}-\d{1,2}$` (the character
classes on either side of each backtracking point are disjoint, so the greedy
match is exact). -/
def isAbsDate (cs : List Char) : Bool :=
  let y := cs.takeWhile isDigitChar
  y.length = 4 &&
    match cs.drop 4 with
    | '-' :: r1 =>
      let mo := r1.takeWhile isDigitChar
      (mo.length = 1 || mo.length = 2) &&
        (match r1.drop mo.length with
         | '-' :: r2 => r2.all isDigitChar && (r2.length = 1 || r2.length = 2)
         | _ => false)
    | _ => false

/-- `parseRelativeDate` from the scraper (src/unnamed/part_006 lines 371-398),
with the evaluation instant `new Date()` made an explicit argument: matches
the relative Korean units 년/일/시간/분/주/개월 (in the source's if-else
order, the hour branch additionally requiring the literal 시간), shifts the
instant accordingly and emits its ISO calendar date; an absolute
`YYYY-M-D`-shaped literal is returned verbatim; anything else is `null`. -/
def parseRelativeDate (now : JsDate) (text : String) : Option String :=
  let cs := text.data
  match searchUnit (tailUnitJeon '년') cs with
  | some n =>
    let c := civilFromDays now.dayNumber
    some (isoDateOfDay (daysFromCivil (c.1 - n) c.2.1 c.2.2))
  | none =>
  match searchUnit (tailUnitJeon '일') cs with
  | some n => some (isoDateOfDay (now.dayNumber - n))
  | none =>
  match (searchUnit tailHour cs).filter (fun _ => containsSiGan cs) with
  | some n => some (isoDateOfDay (JsDate.dayNumber ⟨now.totalMin - 60 * n⟩))
  | none =>
  match searchUnit (tailUnitJeon '분') cs with
  | some n => some (isoDateOfDay (JsDate.dayNumber ⟨now.totalMin - n⟩))
  | none =>
  match searchUnit (tailUnitJeon '주') cs with
  | some n => some (isoDateOfDay (now.dayNumber - 7 * n))
  | none =>
  match searchUnit tailMonthJeon cs with
  | some n =>
    let c := civilFromDays now.dayNumber
    let t := c.1 * 12 + (c.2.1 - 1) - n
    some (isoDateOfDay (daysFromCivil (Int.fdiv t 12) (t - 12 * Int.fdiv t 12 + 1) c.2.2))
  | none =>
    if isAbsDate (trimChars cs) then some (String.mk (trimChars cs)) else none

end SNS

namespace SNS

-- ============================================================
-- ExtractionResult data model
-- ============================================================

/-- `ScrapeResult` (the spec's `ExtractionResult`): one row per
`(platform, username)` attempt; the five metric fields are independently
nullable. -/
structure ScrapeResult where
  platform : String
  username : String
  followers : Option Int
  lastPostDate : Option String
  lastPostView : Option Int
  lastPostLike : Option Int
  lastPostSave : Option Int
deriving DecidableEq

/-- `emptyResult` from the scraper: the all-null result for a platform and
username. -/
def emptyResult (platform username : String) : ScrapeResult :=
  { platform := platform, username := username, followers := none,
    lastPostDate := none, lastPostView := none, lastPostLike := none,
    lastPostSave := none }

/-- `toNum` from the scraper: `Number(v)` guarded by `isNaN`; on an absent
value it returns `null`, never a number. -/
def toNum (v : Option Int) : Option Int :=
  match v with
  | none => none
  | some n => some n

-- ============================================================
-- TikTok response intercept (part_006 lines 492-553)
-- ============================================================

/-- The `stats` object of an intercepted TikTok item; every counter may be
absent. -/
structure TikTokItemStats where
  playCount : Option Int
  diggCount : Option Int
  commentCount : Option Int
  shareCount : Option Int
deriving DecidableEq

/-- One element of the intercepted `itemList`. -/
structure TikTokItem where
  stats : Option TikTokItemStats
  createTime : Option Int
deriving DecidableEq

/-- The record `fetchTikTokVideosOnce` resolves with (note: non-optional
fields; the source defaults every absent stat to `0` with `?? 0`). -/
structure TikTokVideoData where
  playCount : Int
  diggCount : Int
  commentCount : Int
  shareCount : Int
  createTime : Int
deriving DecidableEq

/-- JS `>` on possibly-absent numbers: any comparison with `undefined` is
false. -/
def jsGtOpt (a b : Option Int) : Bool :=
  match a, b with
  | some x, some y => decide (y < x)
  | _, _ => false

/-- The newest-selection loop of `fetchTikTokVideosOnce`: start from
`itemList[0]` and replace whenever `item.createTime > newest.createTime`. -/
def newestItem (x : TikTokItem) (xs : List TikTokItem) : TikTokItem :=
  xs.foldl (fun n i => if jsGtOpt i.createTime n.createTime then i else n) x

/-- The response handler of `fetchTikTokVideosOnce` (part_006 lines 511-537):
on a non-empty `itemList` it resolves the newest item's stats, defaulting
every absent field to `0` via `?? 0`; an empty list never resolves (the
20-second timeout then yields `null`). -/
def interceptItemList (items : List TikTokItem) : Option TikTokVideoData :=
  match items with
  | [] => none
  | x :: xs =>
    let newest := newestItem x xs
    some
      { playCount := ((newest.stats.bind (fun s => s.playCount)).getD 0)
        diggCount := ((newest.stats.bind (fun s => s.diggCount)).getD 0)
        commentCount := ((newest.stats.bind (fun s => s.commentCount)).getD 0)
        shareCount := ((newest.stats.bind (fun s => s.shareCount)).getD 0)
        createTime := newest.createTime.getD 0 }

/-- `new Date(createTime * 1000).toISOString().split("T")[0]` for an epoch
second count: the UTC calendar date of the epoch second. -/
def isoDateOfEpochSec (t : Int) : String :=
  isoDateOfDay (Int.fdiv t 86400)

/-- Environment of one `scrapeTikTok` run (part_006 lines 583-618):
`stalkFollowers` is `res.result.stats.followerCount` when the StalkUser call
succeeded with a non-null count (`none` covers failure, thrown errors and an
absent field); `video` is what `fetchTikTokVideos` returned. -/
structure TikTokEnv where
  stalkFollowers : Option Int
  video : Option TikTokVideoData
deriving DecidableEq

/-- `scrapeTikTok` from part_006 (the current hybrid extractor): start from
the empty result, fill `followers` from StalkUser when available, then fill
view/like/date from the intercepted video data when available. -/
def scrapeTikTok (u : String) (env : TikTokEnv) : ScrapeResult :=
  let r0 := emptyResult "tiktok" u
  let r1 :=
    match env.stalkFollowers with
    | some f => { r0 with followers := some f }
    | none => r0
  match env.video with
  | some v =>
    { r1 with
      lastPostView := some v.playCount
      lastPostLike := some v.diggCount
      lastPostDate := some (isoDateOfEpochSec v.createTime) }
  | none => r1

-- ============================================================
-- Retry / scoring controller (part_007 lines 473-558)
-- ============================================================

/-- Outcome of one extraction attempt as the retry controller sees it: a
returned result, or a thrown (transport-level) exception. -/
inductive Attempt where
  | ok (r : ScrapeResult)
  | err
deriving DecidableEq

/-- The controller's score: how many of the five target fields are non-null. -/
def scoreOf (r : ScrapeResult) : Nat :=
  (if r.followers.isSome then 1 else 0) +
  (if r.lastPostDate.isSome then 1 else 0) +
  (if r.lastPostView.isSome then 1 else 0) +
  (if r.lastPostLike.isSome then 1 else 0) +
  (if r.lastPostSave.isSome then 1 else 0)

/-- How many of the four post-level fields are non-null (`videoDataCount`). -/
def videoDataCount (r : ScrapeResult) : Nat :=
  (if r.lastPostDate.isSome then 1 else 0) +
  (if r.lastPostView.isSome then 1 else 0) +
  (if r.lastPostLike.isSome then 1 else 0) +
  (if r.lastPostSave.isSome then 1 else 0)

/-- The controller's "good enough" early-exit test: followers plus at least
three of the four post-level fields. -/
def goodEnough (r : ScrapeResult) : Bool :=
  r.followers.isSome && decide (3 ≤ videoDataCount r)

/-- The attempt loop of `scrapeTikTokWithRetry`, one list element per
remaining attempt (`rest = []` is the `attempt == maxRetries` iteration).
An `err` element models a thrown attempt: it is caught and the loop
continues; falling off the loop returns the best result when its score is
positive and the empty result otherwise. -/
def retryGo (u : String) : List Attempt → ScrapeResult → Nat → ScrapeResult
  | [], best, bestScore =>
    if 0 < bestScore then best else emptyResult "tiktok" u
  | .err :: rest, best, bestScore => retryGo u rest best bestScore
  | .ok r :: rest, best, bestScore =>
    let score := scoreOf r
    let best2 := if bestScore < score then r else best
    let bestScore2 := if bestScore < score then score else bestScore
    if score = 5 then r
    else if goodEnough r then r
    else
      match rest with
      | [] => best2
      | _ :: _ => retryGo u rest best2 bestScore2

/-- `scrapeTikTokWithRetry` (part_007 lines 473-558) as a function of the
sequence of attempt outcomes the wrapped extractor would produce; the list
length is `maxRetries`. -/
def scrapeTikTokWithRetry (u : String) (attempts : List Attempt) : ScrapeResult :=
  retryGo u attempts (emptyResult "tiktok" u) 0

/-- The successful results of a list of attempts, in attempt order. -/
def okResults : List Attempt → List ScrapeResult
  | [] => []
  | .ok r :: rest => r :: okResults rest
  | .err :: rest => okResults rest

/-- Highest score among a list of results (zero when empty). -/
def maxScore (rs : List ScrapeResult) : Nat :=
  rs.foldr (fun r m => max (scoreOf r) m) 0

/-- The result the spec's retry contract promises, written from the spec's
words: the earliest result attaining the highest score seen, or the empty
result when every attempt scored zero. -/
def specBestResult (u : String) (attempts : List Attempt) : ScrapeResult :=
  let cands := okResults attempts
  let m := maxScore cands
  if m = 0 then emptyResult "tiktok" u
  else
    match cands.find? (fun r => scoreOf r == m) with
    | some r => r
    | none => emptyResult "tiktok" u

/-- No attempt in the list triggers the controller's early exit (a score of 5
always passes the good-enough test, so this is the whole exhaustion
condition). -/
def noEarlyExit (attempts : List Attempt) : Bool :=
  attempts.all fun a =>
    match a with
    | .ok r => !goodEnough r
    | .err => true

/-- The best-so-far tracking fold of the controller in isolation. -/
def foldBest : List Attempt → ScrapeResult × Nat → ScrapeResult × Nat
  | [], p => p
  | .err :: rest, p => foldBest rest p
  | .ok r :: rest, p =>
    foldBest rest (if p.2 < scoreOf r then (r, scoreOf r) else p)

end SNS

namespace SNS

-- ============================================================
-- Concurrency governor (part_006 lines 432-490)
-- ============================================================

/-- State of one platform slot pool: the `active`/`activeSlots` counter (a JS
number, hence an integer that a stray release could in principle drive below
zero), the FIFO queue of suspended waiters, and — as observation history —
the waiters already granted a slot from the queue, in grant order, and the
waiters that were ever enqueued, in arrival order. -/
structure PoolState where
  active : Int
  queue : List Nat
  dequeued : List Nat
  enqueued : List Nat
deriving DecidableEq

/-- The initial pool state (`active: 0, queue: []`). -/
def initPool : PoolState := ⟨0, [], [], []⟩

/-- One pool event: a waiter (identified by a tag) calls acquire, or some
slot holder calls release. -/
inductive PoolEv where
  | acq (w : Nat)
  | rel
deriving DecidableEq

/-- One step of `acquireTikTokSlot`/`releaseTikTokSlot` (capacity 2) and of
`acquirePlatformSlot`/`releasePlatformSlot` (capacity 1), for a general
capacity: acquire increments and returns when `active < cap`, otherwise
appends the waiter to the queue; release decrements and, when the queue is
non-empty, shifts the head waiter, whose queued callback re-increments the
counter and resumes it — the freed slot is handed over directly. -/
def poolStep (cap : Int) (s : PoolState) : PoolEv → PoolState
  | .acq w =>
    if s.active < cap then { s with active := s.active + 1 }
    else { s with queue := s.queue ++ [w], enqueued := s.enqueued ++ [w] }
  | .rel =>
    match s.queue with
    | [] => { s with active := s.active - 1 }
    | w :: rest =>
      { s with active := s.active - 1 + 1, queue := rest,
               dequeued := s.dequeued ++ [w] }

/-- The pool state after a sequence of events. -/
def runPool (cap : Int) (evs : List PoolEv) : PoolState :=
  evs.foldl (poolStep cap) initPool

-- ============================================================
-- TikTok list/detail view merge (src/lib/scraper.ts lines 187-234)
-- ============================================================

/-- The merge of the two view-count sources inside `scrapeTikTok` of
src/lib/scraper.ts: `grid` is `result.lastPostView` after the profile-grid
parse (lines 187-189), `ssr` is `toNum(videoStats.playCount)` from the video
detail page's SSR JSON; lines 230-234 overwrite only a still-null field and
only with a strictly positive detail value. -/
def mergeTikTokView (grid ssr : Option Int) : Option Int :=
  match ssr with
  | some p => if 0 < p && grid.isNone then some p else grid
  | none => grid

-- ============================================================
-- Store update hook (src/unnamed/part_001 lines 58-72)
-- ============================================================

/-- The metric columns of a stored `Account` that `applyScrapeResult`
can touch. -/
structure AccountMetrics where
  followers : Option Int
  lastPostDate : Option String
  lastPostView : Option Int
  lastPostLike : Option Int
  lastPostSave : Option Int
deriving DecidableEq

/-- `applyScrapeResult` from the refresh hook: copy into the update object
exactly the non-null fields of the scrape result and merge them over the
stored account; null fields are skipped, so stored values survive them. -/
def applyScrapeResult (acc : AccountMetrics) (data : ScrapeResult) : AccountMetrics :=
  { followers := if data.followers.isSome then data.followers else acc.followers
    lastPostDate := if data.lastPostDate.isSome then data.lastPostDate else acc.lastPostDate
    lastPostView := if data.lastPostView.isSome then data.lastPostView else acc.lastPostView
    lastPostLike := if data.lastPostLike.isSome then data.lastPostLike else acc.lastPostLike
    lastPostSave := if data.lastPostSave.isSome then data.lastPostSave else acc.lastPostSave }

end SNS

namespace SNS

/-- JS truthiness of a nullable string: null and the empty string are falsy. -/
def strTruthy (o : Option String) : Bool :=
  match o with
  | some s => s ≠ ""
  | none => false

/-- Character class `[\d,만.]` of the Korean follower-count capture. -/
def krCapChar (c : Char) : Bool :=
  c.isDigit || c = ',' || c = '만' || c = '.'

/-- Match of `팔로워\s+([\d,만.]+)\s*명` starting at the current position,
returning the capture group; the classes at each boundary are disjoint, so
the greedy match is exact. -/
def matchKrFollowersAt (cs : List Char) : Option (List Char) :=
  match cs with
  | '팔' :: '로' :: '워' :: rest =>
    let w := rest.takeWhile isWsChar
    if w.isEmpty then none
    else
      let rest2 := rest.drop w.length
      let cap := rest2.takeWhile krCapChar
      if cap.isEmpty then none
      else
        match (rest2.drop cap.length).dropWhile isWsChar with
        | '명' :: _ => some cap
        | _ => none
  | _ => none

/-- Leftmost match of the Korean follower regex in a string. -/
def searchKrFollowers : List Char → Option (List Char)
  | [] => none
  | c :: rest =>
    match matchKrFollowersAt (c :: rest) with
    | some cap => some cap
    | none => searchKrFollowers rest

/-- Character class `[\d,KkMm.]` of the English follower-count capture. -/
def enCapChar (c : Char) : Bool :=
  c.isDigit || c = ',' || c = 'K' || c = 'k' || c = 'M' || c = 'm' || c = '.'

/-- Match of `([\d,KkMm.]+)\s+[Ff]ollowers` starting at the current
position. -/
def matchEnFollowersAt (cs : List Char) : Option (List Char) :=
  let cap := cs.takeWhile enCapChar
  if cap.isEmpty then none
  else
    let rest := cs.drop cap.length
    let w := rest.takeWhile isWsChar
    if w.isEmpty then none
    else
      match rest.drop w.length with
      | 'F' :: 'o' :: 'l' :: 'l' :: 'o' :: 'w' :: 'e' :: 'r' :: 's' :: _ => some cap
      | 'f' :: 'o' :: 'l' :: 'l' :: 'o' :: 'w' :: 'e' :: 'r' :: 's' :: _ => some cap
      | _ => none

/-- Leftmost match of the English follower regex in a string. -/
def searchEnFollowers : List Char → Option (List Char)
  | [] => none
  | c :: rest =>
    match matchEnFollowersAt (c :: rest) with
    | some cap => some cap
    | none => searchEnFollowers rest

/-- The follower extraction of the og:description fallback (part_006 lines
645-652): Korean pattern first; when it is absent or its capture does not
parse, the English pattern. -/
def followersFromOgDescription (desc : String) : Option Int :=
  let f1 :=
    match searchKrFollowers desc.data with
    | some cap => parseNum (String.mk cap)
    | none => none
  match f1 with
  | some v => some v
  | none =>
    match searchEnFollowers desc.data with
    | some cap => parseNum (String.mk cap)
    | none => none

/-- Test of the anchored regex `^\d{4}-\d{2}-\d{2}$` (fixed two-digit month
and day), used before accepting an absolute date verbatim. -/
def isAbsDate2 (cs : List Char) : Bool :=
  let y := cs.takeWhile isDigitChar
  y.length = 4 &&
    match cs.drop 4 with
    | '-' :: r1 =>
      let mo := r1.takeWhile isDigitChar
      mo.length = 2 &&
        (match r1.drop 2 with
         | '-' :: r2 => r2.all isDigitChar && r2.length = 2
         | _ => false)
    | _ => false

-- ============================================================
-- Browsing-context lifecycle events
-- ============================================================

/-- Context lifecycle events of one extractor run: a `newContext()` call and
a `context.close()` call. -/
inductive BCEv where
  | ctxOpen
  | ctxClose
deriving DecidableEq

-- ============================================================
-- Facebook extractor (src/lib/scraper.ts lines 577-759)
-- ============================================================

/-- What one `scrapeFacebook` run observes from the network and DOM:
whether each navigation throws, the availability check, and the strings the
`page.evaluate` scans return. -/
structure FBEnv where
  gotoFails : Bool
  pageOk : Bool
  followerData : Option String
  reelHref : Option String
  reelViews : Option String
  detailGotoFails : Bool
  reelLikes : Option String
  reelDateStr : Option String
deriving DecidableEq

/-- The follower assignment of `scrapeFacebook` (lines 637-639). -/
def fbApplyFollowers (env : FBEnv) (r : ScrapeResult) : ScrapeResult :=
  if strTruthy env.followerData then
    { r with followers := parseNum (env.followerData.getD "") }
  else r

/-- The first-reel view assignment of `scrapeFacebook` (lines 653-655). -/
def fbApplyViews (env : FBEnv) (r : ScrapeResult) : ScrapeResult :=
  if strTruthy env.reelViews then
    { r with lastPostView := parseNum (env.reelViews.getD "") }
  else r

/-- The detail-page like assignment of `scrapeFacebook` (line 749). -/
def fbApplyLikes (env : FBEnv) (r : ScrapeResult) : ScrapeResult :=
  if strTruthy env.reelLikes then
    { r with lastPostLike := parseNum (env.reelLikes.getD "") }
  else r

/-- The detail-page date assignment of `scrapeFacebook` (line 750). -/
def fbApplyDate (now : JsDate) (env : FBEnv) (r : ScrapeResult) : ScrapeResult :=
  if strTruthy env.reelDateStr then
    { r with lastPostDate := parseRelativeDate now (env.reelDateStr.getD "") }
  else r

/-- `scrapeFacebook` from src/lib/scraper.ts, instrumented with the context
lifecycle events it performs.  Every navigation/DOM error is caught by the
function-level `catch` and the `finally` closes the context; the
page-unavailable branch (lines 600-604) closes the context explicitly and
then returns, which runs the `finally` close a second time.  The detail
date string is fed to the module's `parseRelativeDate` with the evaluation
instant made explicit. -/
def scrapeFacebook (now : JsDate) (u : String) (env : FBEnv) :
    ScrapeResult × List BCEv :=
  if env.gotoFails then (emptyResult "facebook" u, [.ctxOpen, .ctxClose])
  else if !env.pageOk then
    (emptyResult "facebook" u, [.ctxOpen, .ctxClose, .ctxClose])
  else if strTruthy env.reelHref then
    if env.detailGotoFails then
      (fbApplyViews env (fbApplyFollowers env (emptyResult "facebook" u)),
        [.ctxOpen, .ctxClose])
    else
      (fbApplyDate now env (fbApplyLikes env
          (fbApplyViews env (fbApplyFollowers env (emptyResult "facebook" u)))),
        [.ctxOpen, .ctxClose])
  else
    (fbApplyViews env (fbApplyFollowers env (emptyResult "facebook" u)),
      [.ctxOpen, .ctxClose])

end SNS

namespace SNS

-- ============================================================
-- YouTube extractor (part_006 lines 846-951)
-- ============================================================

/-- `Number(s)` for the decimal digit strings the YouTube Data API returns in
its count fields (applied only after a truthiness guard, so the string is
non-empty). -/
def apiNum (s : String) : Option Int :=
  if !s.data.isEmpty && s.data.all isDigitChar then
    some (digitsToNat s.data : Int)
  else none

/-- `items[0]` of the channels endpoint: the channel id and its statistics. -/
structure YTChannelItem where
  id : String
  subscriberCount : Option String
  hiddenSubscriberCount : Bool
deriving DecidableEq

/-- `items[0]` of the videos endpoint: snippet and statistics of the latest
video. -/
structure YTVideoItem where
  publishedAt : Option String
  viewCount : Option String
  likeCount : Option String
deriving DecidableEq

/-- What one `scrapeYouTube` run observes from the three API calls.
`throwAt` is the index (0 = channels, 1 = search, 2 = videos) of the first
awaited call that throws, if any; the function-level `catch` turns a throw
into returning the result built so far. -/
structure YTEnv where
  throwAt : Option Nat
  channelOk : Bool
  channelItems : List YTChannelItem
  searchOk : Bool
  searchVideoId : Option String
  videoOk : Bool
  videoItems : List YTVideoItem
deriving DecidableEq

/-- `publishedAt.split("T")[0]`. -/
def splitDatePart (s : String) : String :=
  String.mk (s.data.takeWhile (fun c => c ≠ 'T'))

/-- The subscriber assignment of `scrapeYouTube` (lines 886-888): only a
present, non-hidden count is taken. -/
def ytApplyFollowers (channel : YTChannelItem) (r : ScrapeResult) : ScrapeResult :=
  if strTruthy channel.subscriberCount && !channel.hiddenSubscriberCount then
    { r with followers := apiNum (channel.subscriberCount.getD "") }
  else r

/-- The published-date assignment of `scrapeYouTube` (lines 931-933). -/
def ytApplyDate (video : YTVideoItem) (r : ScrapeResult) : ScrapeResult :=
  if strTruthy video.publishedAt then
    { r with lastPostDate := some (splitDatePart (video.publishedAt.getD "")) }
  else r

/-- The view-count assignment of `scrapeYouTube` (lines 934-936). -/
def ytApplyViews (video : YTVideoItem) (r : ScrapeResult) : ScrapeResult :=
  if strTruthy video.viewCount then
    { r with lastPostView := apiNum (video.viewCount.getD "") }
  else r

/-- The like-count assignment of `scrapeYouTube` (lines 937-939). -/
def ytApplyLikes (video : YTVideoItem) (r : ScrapeResult) : ScrapeResult :=
  if strTruthy video.likeCount then
    { r with lastPostLike := apiNum (video.likeCount.getD "") }
  else r

/-- Steps 2 and 3 of `scrapeYouTube` (latest-video lookup and its
statistics), given the result after the channel step. -/
def ytVideoStep (env : YTEnv) (r1 : ScrapeResult) : ScrapeResult :=
  if env.throwAt = some 1 then r1
  else if !env.searchOk then r1
  else if !strTruthy env.searchVideoId then r1
  else if env.throwAt = some 2 then r1
  else if !env.videoOk then r1
  else
    match env.videoItems with
    | [] => r1
    | video :: _ => ytApplyLikes video (ytApplyViews video (ytApplyDate video r1))

/-- `scrapeYouTube` from part_006: the official-API extractor.  It returns
the all-null result immediately when `YOUTUBE_API_KEY` is unset or empty
(JS falsiness), and otherwise walks the three API steps, bailing out with
whatever has been collected on any non-ok response, missing item or thrown
call. -/
def scrapeYouTube (apiKey : Option String) (u : String) (env : YTEnv) :
    ScrapeResult :=
  if !strTruthy apiKey then emptyResult "youtube" u
  else if env.throwAt = some 0 then emptyResult "youtube" u
  else if !env.channelOk then emptyResult "youtube" u
  else
    match env.channelItems with
    | [] => emptyResult "youtube" u
    | channel :: _ =>
      ytVideoStep env (ytApplyFollowers channel (emptyResult "youtube" u))

-- ============================================================
-- Instagram extractor (part_006 lines 627-841)
-- ============================================================

/-- The object the reels-grid `page.evaluate` returns (part_006 lines
713-740): the first reel's href and the thumbnail-overlay like and view
numbers. -/
structure IGReelInfo where
  href : Option String
  thumbLikes : Option String
  thumbViews : Option String
deriving DecidableEq

/-- What one `scrapeInstagram` run observes.  The fallback branch (no login
session) only sees `fallbackGotoFails` and `ogDesc`; the logged-in branch
sees the rest. -/
structure IGEnv where
  fallbackGotoFails : Bool
  ogDesc : Option String
  loggedInFails : Bool
  redirectedToLogin : Bool
  liFollowers : Option String
  reel : Option IGReelInfo
  reelLikes : Option String
  reelDateStr : Option String
deriving DecidableEq

/-- The og:description follower assignment of the fallback branch of
`scrapeInstagram` (lines 645-652). -/
def igFallbackFollowers (env : IGEnv) (r : ScrapeResult) : ScrapeResult :=
  match env.ogDesc with
  | some desc =>
    if desc ≠ "" then { r with followers := followersFromOgDescription desc }
    else r
  | none => r

/-- The logged-in follower assignment of `scrapeInstagram` (line 704). -/
def igApplyFollowers (env : IGEnv) (r : ScrapeResult) : ScrapeResult :=
  if strTruthy env.liFollowers then
    { r with followers := parseNum (env.liFollowers.getD "") }
  else r

/-- The reel-thumbnail view assignment of `scrapeInstagram` (lines 742-744). -/
def igApplyThumbViews (reel : IGReelInfo) (r : ScrapeResult) : ScrapeResult :=
  if strTruthy reel.thumbViews then
    { r with lastPostView := parseNum (reel.thumbViews.getD "") }
  else r

/-- The reel-detail like assignment of `scrapeInstagram` (line 815). -/
def igApplyLikes (env : IGEnv) (r : ScrapeResult) : ScrapeResult :=
  if strTruthy env.reelLikes then
    { r with lastPostLike := parseNum (env.reelLikes.getD "") }
  else r

/-- JS falsiness of a nullable number: null and 0 are both falsy. -/
def numFalsy (o : Option Int) : Bool :=
  match o with
  | none => true
  | some v => v == 0

/-- The thumbnail-like fallback of `scrapeInstagram` (lines 817-819): note
that the JS guard `!result.lastPostLike` also fires on a like count of 0. -/
def igApplyThumbLikes (reel : IGReelInfo) (r : ScrapeResult) : ScrapeResult :=
  if numFalsy r.lastPostLike && strTruthy reel.thumbLikes then
    { r with lastPostLike := parseNum (reel.thumbLikes.getD "") }
  else r

/-- The reel-detail date assignment of `scrapeInstagram` (lines 820-826):
an exactly `YYYY-MM-DD`-shaped string verbatim, anything else through
`parseRelativeDate`. -/
def igApplyDate (now : JsDate) (env : IGEnv) (r : ScrapeResult) : ScrapeResult :=
  if strTruthy env.reelDateStr then
    if isAbsDate2 (env.reelDateStr.getD "").data then
      { r with lastPostDate := some (env.reelDateStr.getD "") }
    else { r with lastPostDate := parseRelativeDate now (env.reelDateStr.getD "") }
  else r

/-- The reel-detail step of `scrapeInstagram` (lines 746-827), entered with
the result after the profile and thumbnail parses. -/
def igDetailStep (now : JsDate) (env : IGEnv) (reel : IGReelInfo)
    (r : ScrapeResult) : ScrapeResult :=
  if !strTruthy reel.href then r
  else igApplyDate now env (igApplyThumbLikes reel (igApplyLikes env r))

/-- `scrapeInstagram` from part_006, instrumented with the Playwright-context
events of the run and with the flag of the Login Session Store's no-session
exception.  `hasSession` is the (single) cookie-file existence check that
both `hasLoginSession` and `openLoggedInPage` perform.  Without a session the
extractor takes the anonymous og:description fallback inside its own
try/finally around a fresh context; with a session it opens a logged-in page
on the shared stealth browser (no Playwright context), and `openLoggedInPage`
would throw its no-session error only if the cookie file were absent there.
The returned flag records whether that no-session error was raised. -/
def scrapeInstagram (now : JsDate) (hasSession : Bool) (u : String)
    (env : IGEnv) : ScrapeResult × List BCEv × Bool :=
  if !hasSession then
    if env.fallbackGotoFails then
      (emptyResult "instagram" u, [.ctxOpen, .ctxClose], false)
    else
      (igFallbackFollowers env (emptyResult "instagram" u),
        [.ctxOpen, .ctxClose], false)
  else
    -- openLoggedInPage: the cookie file exists (hasSession), so its
    -- no-session branch is not taken; the flag is !hasSession here.
    if env.loggedInFails then (emptyResult "instagram" u, [], !hasSession)
    else if env.redirectedToLogin then (emptyResult "instagram" u, [], !hasSession)
    else
      match env.reel with
      | none => (igApplyFollowers env (emptyResult "instagram" u), [], !hasSession)
      | some reel =>
        (igDetailStep now env reel
          (igApplyThumbViews reel (igApplyFollowers env (emptyResult "instagram" u))),
          [], !hasSession)

end SNS

namespace SNS

-- ============================================================
-- Shared list/character lemmas
-- ============================================================

theorem mem_takeWhile {p : Char → Bool} {l : List Char} {c : Char}
    (h : c ∈ l.takeWhile p) : c ∈ l :=
  (List.takeWhile_sublist p).subset h

theorem mem_dropWhile {p : Char → Bool} {l : List Char} {c : Char}
    (h : c ∈ l.dropWhile p) : c ∈ l :=
  (List.dropWhile_sublist p).subset h

theorem mem_trimChars {l : List Char} {c : Char} (h : c ∈ trimChars l) :
    c ∈ l := by
  unfold trimChars at h
  rw [List.mem_reverse] at h
  have h2 := mem_dropWhile h
  rw [List.mem_reverse] at h2
  exact mem_dropWhile h2

theorem takeWhile_nil_of_none {p : Char → Bool} {l : List Char}
    (h : ∀ c ∈ l, p c = false) : l.takeWhile p = [] := by
  cases l with
  | nil => rfl
  | cons a rest =>
    rw [List.takeWhile_cons, h a (List.mem_cons_self a rest)]
    simp

-- ============================================================
-- C4 lemmas: the magnitude parser on digit-free input
-- ============================================================

theorem parseFloatBody_noDigit {sgn : Int} {body : List Char}
    (h : ∀ c ∈ body, c.isDigit = false) : parseFloatBody sgn body = none := by
  unfold parseFloatBody
  have h1 : body.takeWhile isDigitChar = [] :=
    takeWhile_nil_of_none (fun c hc => h c hc)
  rw [h1]
  simp only [List.length_nil, List.drop_zero]
  have h2 : (match body with
      | '.' :: r2 => r2.takeWhile isDigitChar
      | _ => ([] : List Char)) = [] := by
    split
    · exact takeWhile_nil_of_none (fun c hc => h c (List.mem_cons_of_mem _ hc))
    · rfl
  rw [h2]
  simp

theorem parseFloatDec_noDigit {cs : List Char}
    (h : ∀ c ∈ cs, c.isDigit = false) : parseFloatDec cs = none := by
  unfold parseFloatDec
  split
  · exact parseFloatBody_noDigit (fun c hc => h c (List.mem_cons_of_mem _ hc))
  · exact parseFloatBody_noDigit (fun c hc => h c (List.mem_cons_of_mem _ hc))
  · exact parseFloatBody_noDigit h

theorem matchMagnitude_capture {cs a : List Char} {sufs : List Char}
    (h : matchMagnitude cs sufs = some a) : a = cs.takeWhile isDigitOrDot := by
  simp only [matchMagnitude] at h
  split at h
  · split at h
    · exact (Option.some_inj.mp h).symm
    · exact absurd h (by simp)
  · exact absurd h (by simp)

theorem parseNum_noDigit {s : String}
    (h : ∀ c ∈ s.data, c.isDigit = false) : parseNum s = none := by
  unfold parseNum
  split
  · rfl
  · dsimp only
    have ht : ∀ c ∈ trimChars (s.data.filter (fun c => c ≠ ',')), c.isDigit = false := by
      intro c hc
      exact h c (List.mem_of_mem_filter (mem_trimChars hc))
    have hcap : ∀ {a : List Char} {sufs : List Char},
        matchMagnitude (trimChars (s.data.filter (fun c => c ≠ ','))) sufs = some a →
        parseFloatDec a = none := by
      intro a sufs hm
      rw [matchMagnitude_capture hm]
      exact parseFloatDec_noDigit (fun c hc => ht c (mem_takeWhile hc))
    cases hm1 : matchMagnitude (trimChars (s.data.filter (fun c => c ≠ ','))) ['만'] with
    | some a => dsimp only; rw [hcap hm1]; rfl
    | none =>
    cases hm2 : matchMagnitude (trimChars (s.data.filter (fun c => c ≠ ','))) ['천'] with
    | some a => dsimp only; rw [hcap hm2]; rfl
    | none =>
    cases hm3 : matchMagnitude (trimChars (s.data.filter (fun c => c ≠ ','))) ['억'] with
    | some a => dsimp only; rw [hcap hm3]; rfl
    | none =>
    cases hm4 : matchMagnitude (trimChars (s.data.filter (fun c => c ≠ ','))) ['K', 'k'] with
    | some a => dsimp only; rw [hcap hm4]; rfl
    | none =>
    cases hm5 : matchMagnitude (trimChars (s.data.filter (fun c => c ≠ ','))) ['M', 'm'] with
    | some a => dsimp only; rw [hcap hm5]; rfl
    | none =>
      dsimp only
      rw [parseFloatDec_noDigit ht]
      rfl

end SNS

open SNS in
/-- C4: the magnitude parser satisfies `parseMagnitude("1.2만") = 12000`,
`parseMagnitude("3.4K") = 3400`, `parseMagnitude("2,300") = 2300`,
`parseMagnitude("") = null` and `parseMagnitude("abc") = null`; it strips
comma separators, applies the 만/천/억/K/M multipliers by decimal
multiplication rounded to nearest integer, and returns null (never 0) on
empty or digit-free input. -/
theorem C4_parseMagnitude_spec :
    parseNum "1.2만" = some 12000 ∧
    parseNum "3.4K" = some 3400 ∧
    parseNum "2,300" = some 2300 ∧
    parseNum "" = none ∧
    parseNum "abc" = none ∧
    parseNum "3천" = some 3000 ∧
    parseNum "2.5억" = some 250000000 ∧
    parseNum "1.5M" = some 1500000 ∧
    (∀ s : String, (∀ c ∈ s.data, c.isDigit = false) → parseNum s = none) :=
  ⟨by decide, by decide, by decide, by decide, by decide, by decide,
   by decide, by decide, fun _ h => parseNum_noDigit h⟩

open SNS in
/-- Witness for C4: the digit-free conjunct applied at a concrete input. -/
theorem C4_parseMagnitude_spec_witness : parseNum "no digits here" = none :=
  C4_parseMagnitude_spec.2.2.2.2.2.2.2.2 "no digits here" (by decide)

namespace SNS

-- ============================================================
-- C5 lemmas: every emitted date is digits and dashes only
-- ============================================================

theorem digitChar_isDigit (d : Nat) : (digitChar d).isDigit = true := by
  rcases d with _|_|_|_|_|_|_|_|_|d
  case succ.succ.succ.succ.succ.succ.succ.succ.succ => rfl
  all_goals decide

theorem natDigitChars_digits :
    ∀ (fuel n : Nat), ∀ c ∈ natDigitChars fuel n, c.isDigit = true := by
  intro fuel
  induction fuel with
  | zero => intro n c hc; simp [natDigitChars] at hc
  | succ fuel ih =>
    intro n c hc
    unfold natDigitChars at hc
    split at hc
    · simp at hc
    · rw [List.mem_append] at hc
      rcases hc with hc | hc
      · exact ih _ c hc
      · simp at hc
        rw [hc]
        exact digitChar_isDigit _

theorem padDigits_digits (w n : Nat) : ∀ c ∈ padDigits w n, c.isDigit = true := by
  intro c hc
  unfold padDigits at hc
  rw [List.mem_append] at hc
  rcases hc with hc | hc
  · rw [List.eq_of_mem_replicate hc]
    decide
  · exact natDigitChars_digits _ _ c hc

theorem isoDateOfDay_chars (day : Int) :
    ∀ c ∈ (isoDateOfDay day).data, (c.isDigit || c == '-') = true := by
  intro c hc
  unfold isoDateOfDay at hc
  dsimp only at hc
  simp only [List.mem_append] at hc
  rcases hc with ((((hc | hc) | hc) | hc) | hc) | hc
  · split at hc
    · simp at hc; rw [hc]; decide
    · simp at hc
  · rw [padDigits_digits _ _ c hc]; rfl
  · simp at hc; rw [hc]; decide
  · rw [padDigits_digits _ _ c hc]; rfl
  · simp at hc; rw [hc]; decide
  · rw [padDigits_digits _ _ c hc]; rfl

theorem isDigit_of_mem_takeWhile {l : List Char} {c : Char}
    (h : c ∈ l.takeWhile isDigitChar) : c.isDigit = true :=
  List.mem_takeWhile_imp h

theorem isAbsDate_chars {cs : List Char} (h : isAbsDate cs = true) :
    ∀ c ∈ cs, (c.isDigit || c == '-') = true := by
  intro c hc
  unfold isAbsDate at h
  rw [Bool.and_eq_true] at h
  obtain ⟨hy, hrest⟩ := h
  simp only [decide_eq_true_eq] at hy
  obtain ⟨t, hpre⟩ := (List.takeWhile_prefix (l := cs) isDigitChar)
  have hdrop : cs.drop 4 = t := by
    rw [← hpre, ← hy, List.drop_left]
  rw [hdrop] at hrest
  rw [← hpre] at hc
  rcases List.mem_append.mp hc with hcy | hct
  · rw [isDigit_of_mem_takeWhile hcy]; rfl
  · clear hc hpre hdrop hy
    revert hrest
    split
    · intro hrest
      rename_i r1
      rw [Bool.and_eq_true] at hrest
      obtain ⟨hmo, hrest2⟩ := hrest
      rcases List.mem_cons.mp hct with hcd | hcr1
      · rw [hcd]; decide
      · clear hct hmo
        obtain ⟨t2, hpre2⟩ := (List.takeWhile_prefix (l := r1) isDigitChar)
        have hdrop2 : r1.drop (r1.takeWhile isDigitChar).length = t2 := by
          nth_rewrite 2 [← hpre2]
          rw [List.drop_left]
        rw [hdrop2] at hrest2
        rw [← hpre2] at hcr1
        rcases List.mem_append.mp hcr1 with hcy2 | hct2
        · rw [isDigit_of_mem_takeWhile hcy2]; rfl
        · clear hcr1 hpre2 hdrop2
          revert hrest2
          split
          · intro hrest2
            rename_i r2
            rw [Bool.and_eq_true] at hrest2
            obtain ⟨hall, _⟩ := hrest2
            rcases List.mem_cons.mp hct2 with hcd2 | hcr2
            · rw [hcd2]; decide
            · rw [List.all_eq_true] at hall
              have hcdig := hall c hcr2
              rw [show isDigitChar c = c.isDigit from rfl] at hcdig
              rw [hcdig]; rfl
          · intro hrest2
            exact absurd hrest2 (by simp)
    · intro hrest
      exact absurd hrest (by simp)

theorem parseRelativeDate_shape (now : JsDate) (text s : String)
    (h : parseRelativeDate now text = some s) :
    s.data.all (fun c => c.isDigit || c == '-') = true := by
  have main : ∀ day : Int,
      (isoDateOfDay day).data.all (fun c => c.isDigit || c == '-') = true :=
    fun day => List.all_eq_true.mpr (isoDateOfDay_chars day)
  unfold parseRelativeDate at h
  dsimp only at h
  split at h
  · injection h with h2; subst h2; exact main _
  · split at h
    · injection h with h2; subst h2; exact main _
    · split at h
      · injection h with h2; subst h2; exact main _
      · split at h
        · injection h with h2; subst h2; exact main _
        · split at h
          · injection h with h2; subst h2; exact main _
          · split at h
            · injection h with h2; subst h2; exact main _
            · split at h
              · injection h with h2
                subst h2
                rename_i habs
                exact List.all_eq_true.mpr (isAbsDate_chars habs)
              · exact absurd h (by simp)

end SNS

open SNS in
/-- C5: at the fixed evaluation instant 2025-06-15, the date parser maps
"3일 전" to 2025-06-12, "1주 전" to 2025-06-08, returns the absolute literal
"2025-01-15" verbatim, rejects "garbage" with null, and every non-null output
consists solely of digits and dashes — a calendar date carrying no
time-of-day component. -/
theorem C5_parseRelativeDate_spec :
    parseRelativeDate fixedNow "3일 전" = some "2025-06-12" ∧
    parseRelativeDate fixedNow "1주 전" = some "2025-06-08" ∧
    parseRelativeDate fixedNow "2025-01-15" = some "2025-01-15" ∧
    parseRelativeDate fixedNow "garbage" = none ∧
    (∀ (now : JsDate) (text s : String), parseRelativeDate now text = some s →
      s.data.all (fun c => c.isDigit || c == '-') = true) :=
  ⟨by decide, by decide, by decide, by decide,
   fun now text s h => parseRelativeDate_shape now text s h⟩

open SNS in
/-- Witness for C5: the shape conjunct applied at a concrete parse. -/
theorem C5_parseRelativeDate_spec_witness :
    ("2025-06-12".data.all (fun c => c.isDigit || c == '-')) = true :=
  C5_parseRelativeDate_spec.2.2.2.2 fixedNow "3일 전" "2025-06-12" (by decide)

namespace SNS

/-- The FIFO bookkeeping invariant: arrivals = grants followed by the
still-waiting queue. -/
def poolInv (s : PoolState) : Prop := s.enqueued = s.dequeued ++ s.queue

theorem poolStep_active {cap : Int} {s : PoolState} (e : PoolEv)
    (h : s.active ≤ cap) : (poolStep cap s e).active ≤ cap := by
  cases e with
  | acq w =>
    simp only [poolStep]
    split
    · rename_i hlt
      show s.active + 1 ≤ cap
      omega
    · show s.active ≤ cap
      exact h
  | rel =>
    simp only [poolStep]
    split
    · show s.active - 1 ≤ cap
      omega
    · show s.active - 1 + 1 ≤ cap
      omega

theorem poolStep_inv {cap : Int} {s : PoolState} (e : PoolEv)
    (h : poolInv s) : poolInv (poolStep cap s e) := by
  cases e with
  | acq w =>
    simp only [poolStep]
    split
    · exact h
    · show s.enqueued ++ [w] = s.dequeued ++ (s.queue ++ [w])
      rw [h, List.append_assoc]
  | rel =>
    simp only [poolStep]
    split
    · exact h
    · rename_i w rest heq
      show s.enqueued = (s.dequeued ++ [w]) ++ rest
      rw [h, heq]
      simp

theorem runPool_invariants (cap : Int) (hcap : 0 ≤ cap) (evs : List PoolEv) :
    (runPool cap evs).active ≤ cap ∧ poolInv (runPool cap evs) := by
  suffices h : ∀ s : PoolState, s.active ≤ cap → poolInv s →
      (evs.foldl (poolStep cap) s).active ≤ cap ∧
      poolInv (evs.foldl (poolStep cap) s) by
    exact h initPool hcap rfl
  induction evs with
  | nil => intro s h1 h2; exact ⟨h1, h2⟩
  | cons e rest ih =>
    intro s h1 h2
    rw [List.foldl_cons]
    exact ih _ (poolStep_active e h1) (poolStep_inv e h2)

theorem poolStep_handoff (cap : Int) (s : PoolState) (w : Nat) (rest : List Nat)
    (hq : s.queue = w :: rest) :
    (poolStep cap s .rel).active = s.active ∧
    (poolStep cap s .rel).dequeued = s.dequeued ++ [w] ∧
    (poolStep cap s .rel).queue = rest := by
  simp only [poolStep]
  rw [hq]
  refine ⟨?_, rfl, rfl⟩
  show s.active - 1 + 1 = s.active
  omega

end SNS

open SNS in
/-- C3: for every platform slot pool with non-negative capacity k and every
event sequence, the active slot count never exceeds k (at every step, since
the statement quantifies over all prefixes as well), the waiters ever
enqueued are exactly the waiters granted from the queue followed by the
still-waiting queue — grants from the queue therefore happen in strict FIFO
arrival order — and a release with a waiting queue hands the freed slot
directly to the head waiter, leaving the active count unchanged. -/
theorem C3_slot_pool_spec :
    (∀ cap : Int, 0 ≤ cap → ∀ evs : List PoolEv,
      (runPool cap evs).active ≤ cap ∧
      (runPool cap evs).enqueued =
        (runPool cap evs).dequeued ++ (runPool cap evs).queue) ∧
    (∀ (cap : Int) (s : PoolState) (w : Nat) (rest : List Nat),
      s.queue = w :: rest →
      (poolStep cap s .rel).active = s.active ∧
      (poolStep cap s .rel).dequeued = s.dequeued ++ [w] ∧
      (poolStep cap s .rel).queue = rest) :=
  ⟨fun cap hcap evs => runPool_invariants cap hcap evs,
   fun cap s w rest hq => poolStep_handoff cap s w rest hq⟩

open SNS in
/-- Witness for C3: the TikTok pool (capacity 2) on a concrete five-waiter
trace — three acquisitions overflow into the queue and the releases grant
them in arrival order. -/
theorem C3_slot_pool_spec_witness :
    ((runPool 2 [.acq 0, .acq 1, .acq 2, .acq 3, .acq 4, .rel, .rel]).active ≤ 2 ∧
      (runPool 2 [.acq 0, .acq 1, .acq 2, .acq 3, .acq 4, .rel, .rel]).enqueued =
        (runPool 2 [.acq 0, .acq 1, .acq 2, .acq 3, .acq 4, .rel, .rel]).dequeued ++
          (runPool 2 [.acq 0, .acq 1, .acq 2, .acq 3, .acq 4, .rel, .rel]).queue) ∧
    ((poolStep 2 ⟨2, [7, 8], [], [7, 8]⟩ .rel).active = (2 : Int) ∧
      (poolStep 2 ⟨2, [7, 8], [], [7, 8]⟩ .rel).dequeued = [] ++ [7] ∧
      (poolStep 2 ⟨2, [7, 8], [], [7, 8]⟩ .rel).queue = [8]) :=
  ⟨C3_slot_pool_spec.1 2 (by decide) [.acq 0, .acq 1, .acq 2, .acq 3, .acq 4, .rel, .rel],
   C3_slot_pool_spec.2 2 ⟨2, [7, 8], [], [7, 8]⟩ 7 [8] rfl⟩

open SNS in
/-- C1 counterexample: an intercepted TikTok page whose single item carries
no `stats` object at all (so the source reported no play count, let alone a
zero one) still produces `lastPostView = 0` through
`fetchTikTokVideosOnce`'s `?? 0` defaults and `scrapeTikTok` — the claim
that a result field is 0 only when the source actually reported 0 fails on
this input. -/
theorem C1_nullability_counterexample :
    (scrapeTikTok "user"
      { stalkFollowers := none,
        video := interceptItemList [{ stats := none, createTime := some 7 }] }).lastPostView
      = some 0 ∧
    ({ stats := none, createTime := some 7 } : TikTokItem).stats = none :=
  ⟨by decide, rfl⟩

open SNS in
/-- C1 (amended): every field of an ExtractionResult is independently
nullable, `applyScrapeResult` never turns an absent field into any stored
value (null fields leave the stored value unchanged, present fields are
copied verbatim), and `toNum` maps an absent value to null — but the TikTok
response-intercept path (`fetchTikTokVideosOnce`) defaults the intercepted
item's absent stats to 0, so `scrapeTikTok`'s video fields carry the
reported value when the source reported one and the defaulted 0 when it did
not. -/
theorem C1_nullability_amended :
    (∀ (acc : AccountMetrics) (data : ScrapeResult),
      (data.followers = none →
        (applyScrapeResult acc data).followers = acc.followers) ∧
      (data.lastPostDate = none →
        (applyScrapeResult acc data).lastPostDate = acc.lastPostDate) ∧
      (data.lastPostView = none →
        (applyScrapeResult acc data).lastPostView = acc.lastPostView) ∧
      (data.lastPostLike = none →
        (applyScrapeResult acc data).lastPostLike = acc.lastPostLike) ∧
      (data.lastPostSave = none →
        (applyScrapeResult acc data).lastPostSave = acc.lastPostSave) ∧
      (data.lastPostView.isSome →
        (applyScrapeResult acc data).lastPostView = data.lastPostView)) ∧
    toNum none = none ∧
    (∀ (u : String) (env : TikTokEnv),
      (scrapeTikTok u env).lastPostView = env.video.map (fun v => v.playCount)) ∧
    (∀ (x : TikTokItem) (xs : List TikTokItem) (p : Int),
      (newestItem x xs).stats.bind (fun s => s.playCount) = some p →
      (interceptItemList (x :: xs)).map (fun v => v.playCount) = some p) ∧
    (∀ (x : TikTokItem) (xs : List TikTokItem),
      (newestItem x xs).stats.bind (fun s => s.playCount) = none →
      (interceptItemList (x :: xs)).map (fun v => v.playCount) = some 0) := by
  refine ⟨?_, rfl, ?_, ?_, ?_⟩
  · intro acc data
    refine ⟨?_, ?_, ?_, ?_, ?_, ?_⟩ <;>
      · intro h
        simp [applyScrapeResult, h]
  · intro u env
    unfold scrapeTikTok
    cases env.video <;> cases env.stalkFollowers <;> rfl
  · intro x xs p h
    unfold interceptItemList
    dsimp only
    rw [h]
    rfl
  · intro x xs h
    unfold interceptItemList
    dsimp only
    rw [h]
    rfl

open SNS in
/-- Witness for the amended C1: a stored view count survives a null scrape
field, and an item with absent stats maps to the defaulted 0. -/
theorem C1_nullability_amended_witness :
    (applyScrapeResult
      { followers := some 1, lastPostDate := some "2025-01-01",
        lastPostView := some 5, lastPostLike := none, lastPostSave := none }
      (emptyResult "tiktok" "u")).lastPostView = some 5 ∧
    (interceptItemList [{ stats := none, createTime := some 7 }]).map
      (fun v => v.playCount) = some 0 :=
  ⟨(C1_nullability_amended.1 _ _).2.2.1 rfl,
   C1_nullability_amended.2.2.2.2 { stats := none, createTime := some 7 } [] rfl⟩

open SNS in
/-- C7 counterexample: the view-count merge of `scrapeTikTok` violates the
claim on both sides — a detail-view candidate of exactly 0 with an absent
list value yields a null merge (though a candidate was non-null), and a
populated list value of 0 is kept even when the detail view offers the
non-zero 5 (so the merge is not non-zero whenever either candidate is). -/
theorem C7_view_merge_counterexample :
    mergeTikTokView none (some 0) = none ∧ (some 0 : Option Int) ≠ none ∧
    mergeTikTokView (some 0) (some 5) = some 0 ∧ (5 : Int) ≠ 0 :=
  ⟨rfl, by simp, rfl, by decide⟩

open SNS in
/-- C7 (amended): the extractor never overwrites an already-populated
`lastPostView` — not with null, and not with a later non-zero detail value
either — and fills an absent one from the detail view only when the detail
play count is strictly positive; hence the merge is non-null exactly when
the list value is non-null or the detail value is positive (a detail value
of 0 is treated as absent). -/
theorem C7_view_merge_amended :
    (∀ grid ssr : Option Int, grid.isSome → mergeTikTokView grid ssr = grid) ∧
    (∀ ssr : Option Int, ∀ p : Int, ssr = some p → 0 < p →
      mergeTikTokView none ssr = some p) ∧
    (∀ grid ssr : Option Int, (mergeTikTokView grid ssr).isSome = true ↔
      (grid.isSome = true ∨ ∃ p, ssr = some p ∧ 0 < p)) := by
  refine ⟨?_, ?_, ?_⟩
  · intro grid ssr hg
    cases ssr with
    | none => rfl
    | some p =>
      unfold mergeTikTokView
      cases grid with
      | none => simp at hg
      | some g => simp
  · intro ssr p hs hp
    subst hs
    unfold mergeTikTokView
    simp [hp]
  · intro grid ssr
    cases ssr with
    | none =>
      cases grid <;> simp [mergeTikTokView]
    | some p =>
      cases grid with
      | none => simp [mergeTikTokView]
      | some g => simp [mergeTikTokView]

open SNS in
/-- Witness for the amended C7: a populated list value of 3 survives a
detail value of 9. -/
theorem C7_view_merge_amended_witness :
    mergeTikTokView (some 3) (some 9) = some 3 :=
  C7_view_merge_amended.1 (some 3) (some 9) rfl

namespace SNS

/-- A result transformer that leaves platform and username untouched. -/
def keepsId (f : ScrapeResult → ScrapeResult) : Prop :=
  ∀ r, (f r).platform = r.platform ∧ (f r).username = r.username

theorem fbApplyFollowers_keepsId (env : FBEnv) : keepsId (fbApplyFollowers env) := by
  intro r; unfold fbApplyFollowers; split <;> exact ⟨rfl, rfl⟩

theorem fbApplyViews_keepsId (env : FBEnv) : keepsId (fbApplyViews env) := by
  intro r; unfold fbApplyViews; split <;> exact ⟨rfl, rfl⟩

theorem fbApplyLikes_keepsId (env : FBEnv) : keepsId (fbApplyLikes env) := by
  intro r; unfold fbApplyLikes; split <;> exact ⟨rfl, rfl⟩

theorem fbApplyDate_keepsId (now : JsDate) (env : FBEnv) :
    keepsId (fbApplyDate now env) := by
  intro r; unfold fbApplyDate; split <;> exact ⟨rfl, rfl⟩

theorem ytApplyFollowers_keepsId (c : YTChannelItem) : keepsId (ytApplyFollowers c) := by
  intro r; unfold ytApplyFollowers; split <;> exact ⟨rfl, rfl⟩

theorem ytApplyDate_keepsId (v : YTVideoItem) : keepsId (ytApplyDate v) := by
  intro r; unfold ytApplyDate; split <;> exact ⟨rfl, rfl⟩

theorem ytApplyViews_keepsId (v : YTVideoItem) : keepsId (ytApplyViews v) := by
  intro r; unfold ytApplyViews; split <;> exact ⟨rfl, rfl⟩

theorem ytApplyLikes_keepsId (v : YTVideoItem) : keepsId (ytApplyLikes v) := by
  intro r; unfold ytApplyLikes; split <;> exact ⟨rfl, rfl⟩

theorem keepsId_comp {f g : ScrapeResult → ScrapeResult}
    (hf : keepsId f) (hg : keepsId g) : keepsId (fun r => f (g r)) := by
  intro r
  exact ⟨((hf (g r)).1).trans (hg r).1, ((hf (g r)).2).trans (hg r).2⟩

theorem ytVideoStep_keepsId (env : YTEnv) : keepsId (ytVideoStep env) := by
  intro r
  unfold ytVideoStep
  split
  · exact ⟨rfl, rfl⟩
  · split
    · exact ⟨rfl, rfl⟩
    · split
      · exact ⟨rfl, rfl⟩
      · split
        · exact ⟨rfl, rfl⟩
        · split
          · exact ⟨rfl, rfl⟩
          · split
            · exact ⟨rfl, rfl⟩
            · exact keepsId_comp (ytApplyLikes_keepsId _)
                (keepsId_comp (ytApplyViews_keepsId _) (ytApplyDate_keepsId _)) r

theorem igFallbackFollowers_keepsId (env : IGEnv) :
    keepsId (igFallbackFollowers env) := by
  intro r
  unfold igFallbackFollowers
  split
  · split <;> exact ⟨rfl, rfl⟩
  · exact ⟨rfl, rfl⟩

theorem igApplyFollowers_keepsId (env : IGEnv) : keepsId (igApplyFollowers env) := by
  intro r; unfold igApplyFollowers; split <;> exact ⟨rfl, rfl⟩

theorem igApplyThumbViews_keepsId (reel : IGReelInfo) :
    keepsId (igApplyThumbViews reel) := by
  intro r; unfold igApplyThumbViews; split <;> exact ⟨rfl, rfl⟩

theorem igApplyLikes_keepsId (env : IGEnv) : keepsId (igApplyLikes env) := by
  intro r; unfold igApplyLikes; split <;> exact ⟨rfl, rfl⟩

theorem igApplyThumbLikes_keepsId (reel : IGReelInfo) :
    keepsId (igApplyThumbLikes reel) := by
  intro r; unfold igApplyThumbLikes; split <;> exact ⟨rfl, rfl⟩

theorem igApplyDate_keepsId (now : JsDate) (env : IGEnv) :
    keepsId (igApplyDate now env) := by
  intro r
  unfold igApplyDate
  split
  · split <;> exact ⟨rfl, rfl⟩
  · exact ⟨rfl, rfl⟩

theorem igDetailStep_keepsId (now : JsDate) (env : IGEnv) (reel : IGReelInfo) :
    keepsId (igDetailStep now env reel) := by
  intro r
  unfold igDetailStep
  split
  · exact ⟨rfl, rfl⟩
  · exact keepsId_comp (igApplyDate_keepsId now env)
      (keepsId_comp (igApplyThumbLikes_keepsId reel) (igApplyLikes_keepsId env)) r

end SNS

namespace SNS

theorem retryGo_preserves (u : String) (P : ScrapeResult → Prop)
    (hempty : P (emptyResult "tiktok" u)) :
    ∀ (attempts : List Attempt) (best : ScrapeResult) (bs : Nat),
      P best → (∀ r, Attempt.ok r ∈ attempts → P r) →
      P (retryGo u attempts best bs) := by
  intro attempts
  induction attempts with
  | nil =>
    intro best bs hb _
    unfold retryGo
    split
    · exact hb
    · exact hempty
  | cons a rest ih =>
    intro best bs hb hall
    cases a with
    | err =>
      exact ih best bs hb (fun r hr => hall r (List.mem_cons_of_mem _ hr))
    | ok r =>
      have hr : P r := hall r (List.mem_cons_self _ _)
      unfold retryGo
      dsimp only
      split
      · exact hr
      · split
        · exact hr
        · split
          · split
            · exact hr
            · exact hb
          · refine ih _ _ ?_ (fun r2 hr2 => hall r2 (List.mem_cons_of_mem _ hr2))
            split
            · exact hr
            · exact hb

end SNS

open SNS in
/-- C9: every embedded extractor — YouTube, TikTok, Facebook, Instagram —
and the retry wrapper around the TikTok extractor return a result whose
platform field is that extractor's platform constant and whose username
field is the username argument, on every path including error and fallback
paths; these two fields are never null and never altered. -/
theorem C9_identity :
    (∀ (u : String) (k : Option String) (env : YTEnv),
      (scrapeYouTube k u env).platform = "youtube" ∧
      (scrapeYouTube k u env).username = u) ∧
    (∀ (u : String) (env : TikTokEnv),
      (scrapeTikTok u env).platform = "tiktok" ∧
      (scrapeTikTok u env).username = u) ∧
    (∀ (now : JsDate) (u : String) (env : FBEnv),
      (scrapeFacebook now u env).1.platform = "facebook" ∧
      (scrapeFacebook now u env).1.username = u) ∧
    (∀ (now : JsDate) (hs : Bool) (u : String) (env : IGEnv),
      (scrapeInstagram now hs u env).1.platform = "instagram" ∧
      (scrapeInstagram now hs u env).1.username = u) ∧
    (∀ (u : String) (attempts : List Attempt),
      (∀ r, Attempt.ok r ∈ attempts → r.platform = "tiktok" ∧ r.username = u) →
      (scrapeTikTokWithRetry u attempts).platform = "tiktok" ∧
      (scrapeTikTokWithRetry u attempts).username = u) := by
  refine ⟨?_, ?_, ?_, ?_, ?_⟩
  · intro u k env
    unfold scrapeYouTube
    split
    · exact ⟨rfl, rfl⟩
    · split
      · exact ⟨rfl, rfl⟩
      · split
        · exact ⟨rfl, rfl⟩
        · split
          · exact ⟨rfl, rfl⟩
          · exact keepsId_comp (ytVideoStep_keepsId env) (ytApplyFollowers_keepsId _) _
  · intro u env
    unfold scrapeTikTok
    cases env.video <;> cases env.stalkFollowers <;> exact ⟨rfl, rfl⟩
  · intro now u env
    unfold scrapeFacebook
    split
    · exact ⟨rfl, rfl⟩
    · split
      · exact ⟨rfl, rfl⟩
      · split
        · split
          · exact keepsId_comp (fbApplyViews_keepsId env) (fbApplyFollowers_keepsId env) _
          · exact keepsId_comp (fbApplyDate_keepsId now env)
              (keepsId_comp (fbApplyLikes_keepsId env)
                (keepsId_comp (fbApplyViews_keepsId env) (fbApplyFollowers_keepsId env))) _
        · exact keepsId_comp (fbApplyViews_keepsId env) (fbApplyFollowers_keepsId env) _
  · intro now hs u env
    unfold scrapeInstagram
    split
    · split
      · exact ⟨rfl, rfl⟩
      · exact igFallbackFollowers_keepsId env _
    · split
      · exact ⟨rfl, rfl⟩
      · split
        · exact ⟨rfl, rfl⟩
        · split
          · exact igApplyFollowers_keepsId env _
          · exact keepsId_comp (igDetailStep_keepsId now env _)
              (keepsId_comp (igApplyThumbViews_keepsId _) (igApplyFollowers_keepsId env)) _
  · intro u attempts hall
    exact retryGo_preserves u
      (fun r => r.platform = "tiktok" ∧ r.username = u) ⟨rfl, rfl⟩
      attempts (emptyResult "tiktok" u) 0 ⟨rfl, rfl⟩ hall

namespace SNS

theorem igFallbackFollowers_fields (env : IGEnv) (r : ScrapeResult) :
    (igFallbackFollowers env r).lastPostDate = r.lastPostDate ∧
    (igFallbackFollowers env r).lastPostView = r.lastPostView ∧
    (igFallbackFollowers env r).lastPostLike = r.lastPostLike ∧
    (igFallbackFollowers env r).lastPostSave = r.lastPostSave := by
  unfold igFallbackFollowers
  split
  · split <;> exact ⟨rfl, rfl, rfl, rfl⟩
  · exact ⟨rfl, rfl, rfl, rfl⟩

end SNS

open SNS in
/-- C10: with no Instagram login session, `scrapeInstagram` does not throw a
no-session error but degrades to the anonymous og:description fallback: for
every username and environment, the four post-level fields of the result are
null (only followers may be non-null) and the Login Session Store's
no-session exception is never reached through this entry point. -/
theorem C10_instagram_no_session :
    ∀ (now : JsDate) (u : String) (env : IGEnv),
      (scrapeInstagram now false u env).1.lastPostDate = none ∧
      (scrapeInstagram now false u env).1.lastPostView = none ∧
      (scrapeInstagram now false u env).1.lastPostLike = none ∧
      (scrapeInstagram now false u env).1.lastPostSave = none ∧
      (scrapeInstagram now false u env).2.2 = false := by
  intro now u env
  unfold scrapeInstagram
  simp only [Bool.not_false, if_true]
  split
  · exact ⟨rfl, rfl, rfl, rfl, rfl⟩
  · have h := igFallbackFollowers_fields env (emptyResult "instagram" u)
    exact ⟨h.1, h.2.1, h.2.2.1, h.2.2.2, rfl⟩

open SNS in
/-- Witness for C9: the retry wrapper on a concrete one-attempt run. -/
theorem C9_identity_witness :
    (scrapeTikTokWithRetry "bob" [Attempt.ok (emptyResult "tiktok" "bob")]).platform
      = "tiktok" ∧
    (scrapeTikTokWithRetry "bob" [Attempt.ok (emptyResult "tiktok" "bob")]).username
      = "bob" :=
  C9_identity.2.2.2.2 "bob" [Attempt.ok (emptyResult "tiktok" "bob")]
    (by
      intro r hr
      simp only [List.mem_singleton, Attempt.ok.injEq] at hr
      subst hr
      exact ⟨rfl, rfl⟩)

open SNS in
/-- C8: the official-API extractor fails closed when its credential is
absent — for every username and environment, with the YouTube API key
unset (or empty, which is equally falsy in the source's `!apiKey` check),
`scrapeYouTube` returns the all-null result for the youtube platform and
that username, without throwing. -/
theorem C8_youtube_fails_closed :
    ∀ (u : String) (env : YTEnv) (apiKey : Option String),
      (apiKey = none ∨ apiKey = some "") →
      scrapeYouTube apiKey u env = emptyResult "youtube" u := by
  intro u env apiKey h
  rcases h with h | h <;> subst h <;> rfl

open SNS in
/-- Witness for C8: a fully healthy environment still yields the empty
result when the key is absent. -/
theorem C8_youtube_fails_closed_witness :
    scrapeYouTube none "alice"
      ⟨none, true, [⟨"c1", some "12", false⟩], true, some "v1", true,
        [⟨some "2025-01-01T00:00:00Z", some "7", some "3"⟩]⟩
      = emptyResult "youtube" "alice" :=
  C8_youtube_fails_closed "alice" _ none (Or.inl rfl)

open SNS in
/-- C6 counterexample: on `scrapeFacebook`'s page-unavailable path the
single created context is closed twice — once by the explicit
`context.close()` before the early return (lines 600-604) and once by the
`finally` (lines 754-756) — so close calls (2) do not equal `newContext`
calls (1) on that exit path. -/
theorem C6_context_balance_counterexample :
    (scrapeFacebook fixedNow "u"
      ⟨false, false, none, none, none, false, none, none⟩).2.count BCEv.ctxOpen = 1 ∧
    (scrapeFacebook fixedNow "u"
      ⟨false, false, none, none, none, false, none, none⟩).2.count BCEv.ctxClose = 2 ∧
    (1 : Nat) ≠ 2 := by
  refine ⟨by decide, by decide, by decide⟩

open SNS in
/-- C6 (amended): on every exit path every created context is closed at
least once — no context leaks — and the number of close calls equals the
number of `newContext` calls, except on `scrapeFacebook`'s page-unavailable
early return, where the one context is closed exactly twice (Playwright's
close is idempotent, so no double-free occurs); `scrapeInstagram`'s paths
are exactly balanced. -/
theorem C6_context_balance_amended :
    (∀ (now : JsDate) (u : String) (env : FBEnv),
      (scrapeFacebook now u env).2.count BCEv.ctxOpen = 1 ∧
      1 ≤ (scrapeFacebook now u env).2.count BCEv.ctxClose ∧
      ((scrapeFacebook now u env).2.count BCEv.ctxClose = 1 ∨
        ((scrapeFacebook now u env).2.count BCEv.ctxClose = 2 ∧
          env.pageOk = false ∧ env.gotoFails = false))) ∧
    (∀ (now : JsDate) (hs : Bool) (u : String) (env : IGEnv),
      (scrapeInstagram now hs u env).2.1.count BCEv.ctxOpen =
        (scrapeInstagram now hs u env).2.1.count BCEv.ctxClose) := by
  constructor
  · intro now u env
    unfold scrapeFacebook
    split
    · exact ⟨rfl, Nat.le_refl 1, Or.inl rfl⟩
    · rename_i hgoto
      split
      · rename_i hpage
        refine ⟨rfl, Nat.le_succ 1, Or.inr ⟨rfl, ?_, ?_⟩⟩
        · simpa using hpage
        · simpa using hgoto
      · split
        · split
          · exact ⟨rfl, Nat.le_refl 1, Or.inl rfl⟩
          · exact ⟨rfl, Nat.le_refl 1, Or.inl rfl⟩
        · exact ⟨rfl, Nat.le_refl 1, Or.inl rfl⟩
  · intro now hs u env
    unfold scrapeInstagram
    split
    · split
      · rfl
      · rfl
    · split
      · rfl
      · split
        · rfl
        · split
          · rfl
          · rfl

namespace SNS

-- ============================================================
-- C2 lemmas: scoring and the best-result fold
-- ============================================================

theorem scoreOf_decomp (r : ScrapeResult) :
    scoreOf r = (if r.followers.isSome then 1 else 0) + videoDataCount r := by
  unfold scoreOf videoDataCount
  omega

theorem videoDataCount_le (r : ScrapeResult) : videoDataCount r ≤ 4 := by
  unfold videoDataCount
  split_ifs <;> omega

theorem scoreOf_le (r : ScrapeResult) : scoreOf r ≤ 5 := by
  rw [scoreOf_decomp]
  have h := videoDataCount_le r
  split_ifs <;> omega

theorem goodEnough_of_score5 {r : ScrapeResult} (h : scoreOf r = 5) :
    goodEnough r = true := by
  rw [scoreOf_decomp] at h
  have hv := videoDataCount_le r
  unfold goodEnough
  cases hf : r.followers.isSome with
  | false =>
    rw [hf] at h
    simp only [Bool.false_eq_true, if_false] at h
    exfalso
    omega
  | true =>
    rw [hf] at h
    simp only [if_true] at h
    simp only [Bool.true_and]
    rw [decide_eq_true_eq]
    omega

theorem goodEnough_ge4 {r : ScrapeResult} (h : goodEnough r = true) :
    4 ≤ scoreOf r := by
  unfold goodEnough at h
  rw [Bool.and_eq_true, decide_eq_true_eq] at h
  rw [scoreOf_decomp, h.1]
  have h2 := h.2
  simp only [if_true]
  omega

theorem maxScore_cons (r : ScrapeResult) (rs : List ScrapeResult) :
    maxScore (r :: rs) = max (scoreOf r) (maxScore rs) := rfl

theorem okResults_ok (r : ScrapeResult) (rest : List Attempt) :
    okResults (.ok r :: rest) = r :: okResults rest := rfl

theorem okResults_err (rest : List Attempt) :
    okResults (.err :: rest) = okResults rest := rfl

theorem foldBest_snd : ∀ (attempts : List Attempt) (b : ScrapeResult) (s : Nat),
    (foldBest attempts (b, s)).2 = max s (maxScore (okResults attempts)) := by
  intro attempts
  induction attempts with
  | nil =>
    intro b s
    simp [foldBest, okResults, maxScore]
  | cons a rest ih =>
    intro b s
    cases a with
    | err =>
      rw [okResults_err]
      exact ih b s
    | ok r =>
      rw [okResults_ok, maxScore_cons]
      unfold foldBest
      dsimp only
      split
      · rename_i hlt
        rw [ih]
        omega
      · rename_i hnlt
        rw [ih]
        omega

theorem foldBest_fst_stay : ∀ (attempts : List Attempt) (b : ScrapeResult) (s : Nat),
    maxScore (okResults attempts) ≤ s → (foldBest attempts (b, s)).1 = b := by
  intro attempts
  induction attempts with
  | nil => intro b s _; rfl
  | cons a rest ih =>
    intro b s h
    cases a with
    | err => exact ih b s h
    | ok r =>
      rw [okResults_ok, maxScore_cons] at h
      unfold foldBest
      dsimp only
      split
      · rename_i hlt
        omega
      · exact ih b s (by omega)

theorem foldBest_find : ∀ (attempts : List Attempt) (b : ScrapeResult) (s : Nat),
    s < maxScore (okResults attempts) →
    (okResults attempts).find?
        (fun r => scoreOf r == maxScore (okResults attempts)) =
      some (foldBest attempts (b, s)).1 := by
  intro attempts
  induction attempts with
  | nil =>
    intro b s h
    simp [okResults, maxScore] at h
  | cons a rest ih =>
    intro b s h
    cases a with
    | err =>
      rw [okResults_err] at h ⊢
      exact ih b s h
    | ok r =>
      rw [okResults_ok, maxScore_cons] at h ⊢
      unfold foldBest
      dsimp only
      by_cases hlt : s < scoreOf r
      · rw [if_pos hlt]
        by_cases hmr : maxScore (okResults rest) ≤ scoreOf r
        · have hmax : max (scoreOf r) (maxScore (okResults rest)) = scoreOf r := by
            omega
          rw [hmax]
          rw [List.find?_cons_of_pos _ (by simp)]
          rw [foldBest_fst_stay rest r (scoreOf r) hmr]
        · have hlt2 : scoreOf r < maxScore (okResults rest) := by omega
          have hmax : max (scoreOf r) (maxScore (okResults rest)) =
              maxScore (okResults rest) := by omega
          rw [hmax]
          rw [List.find?_cons_of_neg _ (by simp; omega)]
          exact ih r (scoreOf r) hlt2
      · rw [if_neg hlt]
        have hlt2 : s < maxScore (okResults rest) := by omega
        have hmax : max (scoreOf r) (maxScore (okResults rest)) =
            maxScore (okResults rest) := by omega
        rw [hmax]
        rw [List.find?_cons_of_neg _ (by simp; omega)]
        exact ih b s hlt2

theorem noEarlyExit_cons_ok {r : ScrapeResult} {rest : List Attempt}
    (h : noEarlyExit (.ok r :: rest) = true) :
    goodEnough r = false ∧ noEarlyExit rest = true := by
  unfold noEarlyExit at h ⊢
  rw [List.all_cons, Bool.and_eq_true] at h
  exact ⟨by simpa using h.1, h.2⟩

theorem noEarlyExit_cons_err {rest : List Attempt}
    (h : noEarlyExit (.err :: rest) = true) : noEarlyExit rest = true := by
  unfold noEarlyExit at h ⊢
  rw [List.all_cons, Bool.and_eq_true] at h
  exact h.2

theorem retryGo_fold (u : String) :
    ∀ (attempts : List Attempt) (best : ScrapeResult) (bs : Nat),
      noEarlyExit attempts = true →
      (bs = 0 → best = emptyResult "tiktok" u) →
      retryGo u attempts best bs =
        (if 0 < (foldBest attempts (best, bs)).2
          then (foldBest attempts (best, bs)).1
          else emptyResult "tiktok" u) := by
  intro attempts
  induction attempts with
  | nil =>
    intro best bs _ _
    rfl
  | cons a rest ih =>
    intro best bs hne hinv
    cases a with
    | err =>
      unfold retryGo foldBest
      exact ih best bs (noEarlyExit_cons_err hne) hinv
    | ok r =>
      obtain ⟨hge, hne2⟩ := noEarlyExit_cons_ok hne
      have h5 : ¬(scoreOf r = 5) := fun h => by
        rw [goodEnough_of_score5 h] at hge
        exact absurd hge (by simp)
      rw [show foldBest (.ok r :: rest) (best, bs) =
        foldBest rest (if bs < scoreOf r then (r, scoreOf r) else (best, bs))
        from rfl]
      unfold retryGo
      dsimp only
      rw [if_neg h5, if_neg (by rw [hge]; simp)]
      by_cases hlt : bs < scoreOf r
      · simp only [if_pos hlt]
        cases rest with
        | nil =>
          rw [show foldBest [] (r, scoreOf r) = (r, scoreOf r) from rfl]
          rw [if_pos (by omega : 0 < (r, scoreOf r).2)]
        | cons b rest2 =>
          exact ih r (scoreOf r) hne2 (fun h => absurd h (by omega))
      · simp only [if_neg hlt]
        cases rest with
        | nil =>
          rw [show foldBest [] (best, bs) = (best, bs) from rfl]
          by_cases hbs : 0 < bs
          · rw [if_pos hbs]
          · rw [if_neg hbs, hinv (by omega)]
        | cons b rest2 =>
          exact ih best bs hne2 hinv

theorem retry_spec_of_noEarly (u : String) (attempts : List Attempt)
    (h : noEarlyExit attempts = true) :
    scrapeTikTokWithRetry u attempts = specBestResult u attempts := by
  unfold scrapeTikTokWithRetry specBestResult
  rw [retryGo_fold u attempts (emptyResult "tiktok" u) 0 h (fun _ => rfl)]
  dsimp only
  have hsnd := foldBest_snd attempts (emptyResult "tiktok" u) 0
  by_cases hm : maxScore (okResults attempts) = 0
  · rw [if_pos hm]
    have h0 : (foldBest attempts (emptyResult "tiktok" u, 0)).2 = 0 := by
      rw [hsnd, hm]
      omega
    rw [h0]
    simp
  · rw [if_neg hm]
    have hpos : 0 < maxScore (okResults attempts) := Nat.pos_of_ne_zero hm
    have h0 : 0 < (foldBest attempts (emptyResult "tiktok" u, 0)).2 := by
      rw [hsnd]; omega
    rw [if_pos h0]
    rw [foldBest_find attempts (emptyResult "tiktok" u) 0 hpos]

theorem retryGo_score_ge (u : String) :
    ∀ (attempts : List Attempt) (best : ScrapeResult) (bs : Nat),
      scoreOf best = bs → bs ≤ 4 →
      bs ≤ scoreOf (retryGo u attempts best bs) := by
  intro attempts
  induction attempts with
  | nil =>
    intro best bs hb h4
    unfold retryGo
    split
    · exact le_of_eq hb.symm
    · rename_i h
      have hz : bs = 0 := by omega
      rw [hz]
      exact Nat.zero_le _
  | cons a rest ih =>
    intro best bs hb h4
    cases a with
    | err => exact ih best bs hb h4
    | ok r =>
      unfold retryGo
      dsimp only
      split
      · rename_i h5
        omega
      · split
        · rename_i hge
          have := goodEnough_ge4 hge
          omega
        · split
          · by_cases hlt : bs < scoreOf r
            · rw [if_pos hlt]
              omega
            · rw [if_neg hlt]
              exact le_of_eq hb.symm
          · by_cases hlt : bs < scoreOf r
            · simp only [if_pos hlt]
              have hle := scoreOf_le r
              have := ih r (scoreOf r) rfl (by rename_i h5 _ _ _; omega)
              omega
            · simp only [if_neg hlt]
              exact ih best bs hb h4

end SNS

namespace SNS

theorem retryGo_allZero (u : String) :
    ∀ (attempts : List Attempt) (best : ScrapeResult) (bs : Nat),
      scoreOf best = bs → bs ≤ 4 →
      scoreOf (retryGo u attempts best bs) = 0 →
      ∀ r, Attempt.ok r ∈ attempts → scoreOf r = 0 := by
  intro attempts
  induction attempts with
  | nil =>
    intro best bs _ _ _ r hr
    simp at hr
  | cons a rest ih =>
    intro best bs hb h4 h0 r hr
    cases a with
    | err =>
      rcases List.mem_cons.mp hr with heq | htail
      · exact absurd heq (by simp)
      · exact ih best bs hb h4 h0 r htail
    | ok q =>
      unfold retryGo at h0
      dsimp only at h0
      revert h0
      split
      · rename_i h5
        intro h0
        exfalso
        omega
      · split
        · rename_i hge
          intro h0
          exfalso
          have := goodEnough_ge4 hge
          omega
        · split
          · intro h0
            rcases List.mem_cons.mp hr with heq | htail
            · rw [Attempt.ok.injEq] at heq
              subst heq
              by_cases hlt : bs < scoreOf r
              · rw [if_pos hlt] at h0
                exact h0
              · rw [if_neg hlt] at h0
                omega
            · simp at htail
          · rename_i h5 hge hd tl
            intro h0
            rcases List.mem_cons.mp hr with heq | htail
            · rw [Attempt.ok.injEq] at heq
              subst heq
              by_cases hlt : bs < scoreOf r
              · have hge2 := retryGo_score_ge u (hd :: tl) r (scoreOf r) rfl
                  (by have := scoreOf_le r; omega)
                rw [if_pos hlt, if_pos hlt] at h0
                omega
              · have hge2 := retryGo_score_ge u (hd :: tl) best bs hb h4
                rw [if_neg hlt, if_neg hlt] at h0
                omega
            · by_cases hlt : bs < scoreOf q
              · rw [if_pos hlt, if_pos hlt] at h0
                exact ih q (scoreOf q) rfl
                  (by have := scoreOf_le q; omega) h0 r htail
              · rw [if_neg hlt, if_neg hlt] at h0
                exact ih best bs hb h4 h0 r htail

end SNS

open SNS in
/-- C2 counterexample: two attempts both scoring 4 — the first missing only
followers (not good enough), the second hitting the good-enough early exit.
The controller returns the second attempt, while the highest-score-ties-keep-
the-earliest contract demands the first. -/
theorem C2_retry_counterexample :
    scrapeTikTokWithRetry "u"
      [.ok ⟨"tiktok", "u", none, some "d", some 1, some 2, some 3⟩,
       .ok ⟨"tiktok", "u", some 10, some "d", some 1, some 2, none⟩] =
      ⟨"tiktok", "u", some 10, some "d", some 1, some 2, none⟩ ∧
    specBestResult "u"
      [.ok ⟨"tiktok", "u", none, some "d", some 1, some 2, some 3⟩,
       .ok ⟨"tiktok", "u", some 10, some "d", some 1, some 2, none⟩] =
      ⟨"tiktok", "u", none, some "d", some 1, some 2, some 3⟩ ∧
    (⟨"tiktok", "u", some 10, some "d", some 1, some 2, none⟩ : ScrapeResult) ≠
      ⟨"tiktok", "u", none, some "d", some 1, some 2, some 3⟩ ∧
    scoreOf ⟨"tiktok", "u", none, some "d", some 1, some 2, some 3⟩ = 4 ∧
    scoreOf ⟨"tiktok", "u", some 10, some "d", some 1, some 2, none⟩ = 4 := by
  refine ⟨by decide, by decide, by decide, by decide, by decide⟩

open SNS in
/-- C2 (amended): when no attempt triggers the early exit (score 5 or the
good-enough threshold), the controller returns exactly the spec's best
result — the earliest result attaining the highest score across all
attempts, and the empty result only when every attempt scored zero; an
early good-enough exit may instead return the triggering attempt, which
ties but need not be the earliest.  An all-null return happens only when
every attempt scored zero, and for the attempt-score sequence [2, 4, 1] the
attempt scoring 4 is returned (in both its good-enough and
not-good-enough shapes). -/
theorem C2_retry_best_result :
    (∀ (u : String) (attempts : List Attempt), noEarlyExit attempts = true →
      scrapeTikTokWithRetry u attempts = specBestResult u attempts) ∧
    (∀ (u : String) (attempts : List Attempt),
      scoreOf (scrapeTikTokWithRetry u attempts) = 0 →
      ∀ r, Attempt.ok r ∈ attempts → scoreOf r = 0) ∧
    scrapeTikTokWithRetry "u"
      [.ok ⟨"tiktok", "u", some 1, some "d", none, none, none⟩,
       .ok ⟨"tiktok", "u", some 2, some "d", some 3, some 4, none⟩,
       .ok ⟨"tiktok", "u", none, none, some 9, none, none⟩] =
      ⟨"tiktok", "u", some 2, some "d", some 3, some 4, none⟩ ∧
    scrapeTikTokWithRetry "u"
      [.ok ⟨"tiktok", "u", some 1, some "d", none, none, none⟩,
       .ok ⟨"tiktok", "u", none, some "d", some 3, some 4, some 5⟩,
       .ok ⟨"tiktok", "u", none, none, some 9, none, none⟩] =
      ⟨"tiktok", "u", none, some "d", some 3, some 4, some 5⟩ :=
  ⟨fun u attempts h => retry_spec_of_noEarly u attempts h,
   fun u attempts h0 =>
     retryGo_allZero u attempts (emptyResult "tiktok" u) 0 rfl (by omega) h0,
   by decide, by decide⟩

open SNS in
/-- Witness for the amended C2: a concrete exhaustion run — an error attempt
followed by a one-field attempt — returns the spec's best result. -/
theorem C2_retry_best_result_witness :
    scrapeTikTokWithRetry "w"
      [.err, .ok ⟨"tiktok", "w", some 7, none, none, none, none⟩] =
      specBestResult "w"
        [.err, .ok ⟨"tiktok", "w", some 7, none, none, none, none⟩] :=
  C2_retry_best_result.1 "w"
    [.err, .ok ⟨"tiktok", "w", some 7, none, none, none, none⟩] (by decide)
